import Mathlib

/-
Verification of the control-mapping and event-translation engine of the
xtouch-mini bridge (src/main.py): the persistent control store, the
interactive mapping wizard, the learn session, and the normal-mode
translation engine. Interactive input is modelled as already-tokenized
operator answers; the OSC/UDP transport is modelled by the list of
messages that would be sent; JSON file persistence is modelled at the
level of the JSON document written/parsed (json.dump/json.load of the
Python standard library are treated as a faithful text codec). MIDI raw
messages are lists of data bytes (msg[0] in the source); floats are
modelled as rationals.
-/

namespace XTouchMini

/-- The three control activities ("volume", "mute", "solo" in the source). -/
inductive Activity
  | volume
  | mute
  | solo
deriving DecidableEq, Repr

/-- A channel value as stored by the source: a Python int (validated to 1..16
before use), or the literal strings "master" / "aux". -/
inductive ChannelRef
  | num (n : Int)
  | master
  | aux
deriving DecidableEq, Repr

/-- Python string formatting with format spec 02d applied to an int
(zero-pad to width 2); source: the f-strings in map_control / map_controls. -/
def format02d (n : Int) : String :=
  if 0 ≤ n ∧ n < 10 then "0" ++ toString n else toString n

/-- OSC address derivation of map_control (src/main.py lines 172-189):
a dict keyed by control type, built per channel kind; mirrored here as a
function from Activity. -/
def osc_paths (channel : ChannelRef) : Activity → String :=
  match channel with
  | .master => fun a =>
      match a with
      | .volume => "/lr/mix/fader"
      | .mute => "/lr/mix/on"
      | .solo => "/-stat/solosw/lr"
  | .aux => fun a =>
      match a with
      | .volume => "/rtn/aux/mix/fader"
      | .mute => "/rtn/aux/mix/on"
      | .solo => "/rtn/aux/mix/solo"
  | .num n => fun a =>
      match a with
      | .volume => "/ch/" ++ format02d n ++ "/mix/fader"
      | .mute => "/ch/" ++ format02d n ++ "/mix/on"
      | .solo => "/-stat/solosw/" ++ format02d n

/-- Zero-padding to two digits as the spec words it (section 3 table). -/
def specPad2 (n : Int) : String :=
  let s := toString n
  if s.length = 1 then "0" ++ s else s

/-- The OSC address table of spec section 3, written from the spec words
(for comparison with the derivation embedded from the source). -/
def spec_osc_address (channel : ChannelRef) (a : Activity) : String :=
  match channel, a with
  | .num n, .volume => "/ch/" ++ specPad2 n ++ "/mix/fader"
  | .num n, .mute => "/ch/" ++ specPad2 n ++ "/mix/on"
  | .num n, .solo => "/-stat/solosw/" ++ specPad2 n
  | .master, .volume => "/lr/mix/fader"
  | .master, .mute => "/lr/mix/on"
  | .master, .solo => "/-stat/solosw/lr"
  | .aux, .volume => "/rtn/aux/mix/fader"
  | .aux, .mute => "/rtn/aux/mix/on"
  | .aux, .solo => "/rtn/aux/mix/solo"

/-- An in-memory control store entry: the JSON dict stored under a control
key. The source writes either the sentinel dict with activity null (modelled
as all fields none) or a fully mapped dict (all fields some). -/
structure ControlEntry where
  activity : Option Activity := none
  channel : Option ChannelRef := none
  osc_path : Option String := none
deriving DecidableEq, Repr

/-- Operator channel input after strip/lower and int() parsing: the token
master, the token aux, a parsed integer, or a non-numeric non-token string
(for which int() raises ValueError). -/
inductive ChannelInput
  | master
  | aux
  | numTok (n : Int)
  | invalid
deriving DecidableEq, Repr

/-- Channel validation common to map_control and map_controls: master/aux
accepted verbatim; an integer accepted iff 1 <= n <= 16; anything else is a
skip (none). -/
def parseChannel : ChannelInput → Option ChannelRef
  | .master => some ChannelRef.master
  | .aux => some ChannelRef.aux
  | .numTok n => if 1 ≤ n ∧ n ≤ 16 then some (ChannelRef.num n) else none
  | .invalid => none

/-- The control_types dict {1: volume, 2: mute, 3: solo}; lookup of the
operator choice. -/
def control_types : Int → Option Activity
  | 1 => some Activity.volume
  | 2 => some Activity.mute
  | 3 => some Activity.solo
  | _ => none

/-- Function selector parsing: none models int() raising ValueError on the
selector input; an integer outside {1,2,3} is an invalid choice. -/
def parseChoice : Option Int → Option Activity
  | none => none
  | some c => control_types c

/-- map_control (src/main.py lines 137-197): elicit one control mapping.
Returns none on any invalid input (cancelled), otherwise the mapped dict.
The osc_paths dict is built only after the channel kind is dispatched, so
master/aux never meet the 02d format spec here. -/
def map_control (chIn : ChannelInput) (choiceIn : Option Int) : Option ControlEntry :=
  match parseChannel chIn with
  | none => none
  | some channel =>
    match parseChoice choiceIn with
    | none => none
    | some control_type =>
      some { activity := some control_type
             channel := some channel
             osc_path := some (osc_paths channel control_type) }

/-- Python f-string formatting of the channel with format spec 02d as done
at src/main.py lines 101-105: an int formats fine, but the strings "master"
and "aux" raise ValueError (unknown format code d for a str). -/
def format02dPy : ChannelRef → Except String String
  | .num n => Except.ok (format02d n)
  | .master => Except.error "Unknown format code d for object of type str"
  | .aux => Except.error "Unknown format code d for object of type str"

/-- One iteration of the batch map-all-unmapped loop in map_controls
(src/main.py lines 67-132) for a single pending key: channel and choice
validation as in map_control, then the unconditional osc_paths dict build of
lines 101-105 (which formats the channel with 02d BEFORE the master/aux
special-casing of lines 107-124 is reached), then the conditional rebuild
and the resulting entry. Error propagates the uncaught ValueError; ok none
models a printed skip (the loop continues). -/
def map_controls_step (chIn : ChannelInput) (choiceIn : Option Int) :
    Except String (Option ControlEntry) :=
  match parseChannel chIn with
  | none => Except.ok none
  | some channel =>
    match parseChoice choiceIn with
    | none => Except.ok none
    | some control_type =>
      match format02dPy channel with
      | Except.error e => Except.error e
      | Except.ok _ =>
        Except.ok (some { activity := some control_type
                          channel := some channel
                          osc_path := some (osc_paths channel control_type) })

/-- Control identity derived from a raw MIDI message (the list msg[0]):
status_data1 when at least two bytes are present, else just the status byte
(src/main.py lines 207 and 325). -/
def keyOf : List Nat → String
  | b0 :: b1 :: _ => toString b0 ++ "_" ++ toString b1
  | [b0] => toString b0
  | [] => ""

/-- Value byte in normal mode: msg[0][2] if present, else 0
(src/main.py line 326). -/
def valueNormal : List Nat → Nat
  | _ :: _ :: v :: _ => v
  | _ => 0

/-- Value byte in learn mode: msg[0][2] if present, else None
(src/main.py line 208). -/
def valueLearn : List Nat → Option Nat
  | _ :: _ :: v :: _ => some v
  | _ => none

/-- Python dict lookup on an association list (first binding wins). -/
def lookupKey {α : Type} : List (String × α) → String → Option α
  | [], _ => none
  | (k0, v0) :: rest, k => if k0 = k then some v0 else lookupKey rest k

/-- Python dict assignment d[k] = v on an association list. -/
def setKey {α : Type} : List (String × α) → String → α → List (String × α)
  | [], k, v => [(k, v)]
  | (k0, v0) :: rest, k, v =>
      if k0 = k then (k, v) :: rest else (k0, v0) :: setKey rest k v

/-- Python dict d.get(k, dflt). -/
def getD {α : Type} (l : List (String × α)) (k : String) (dflt : α) : α :=
  match lookupKey l k with
  | some v => v
  | none => dflt

/-- Python truthiness of controls[key].get of the osc_path field: absent or
empty string is falsy. -/
def truthyPath : Option String → Bool
  | none => false
  | some s => decide (s ≠ "")

/-- Normal-mode midi_callback (src/main.py lines 323-348), as a function
from the control store, the button_states dict and the raw message to the
updated button_states and the list of OSC messages sent (address, numeric
value as a rational; volume sends value/127.0, toggles send 0 or 1). -/
def midi_callback (controls : List (String × ControlEntry))
    (button_states : List (String × Bool)) (msg : List Nat) :
    List (String × Bool) × List (String × ℚ) :=
  match msg with
  | [] => (button_states, [])
  | _ :: _ =>
    let key := keyOf msg
    let value := valueNormal msg
    match lookupKey controls key with
    | none => (button_states, [])
    | some entry =>
      if truthyPath entry.osc_path then
        let osc_path := (entry.osc_path).getD ""
        if entry.activity = some Activity.volume then
          (button_states, [(osc_path, (value : ℚ) / 127)])
        else if (entry.activity = some Activity.mute ∨
                 entry.activity = some Activity.solo) ∧ 0 < value then
          let current_state := getD button_states key false
          let new_state := !current_state
          let bs2 := setKey button_states key new_state
          let normalized_value : ℚ :=
            if entry.activity = some Activity.mute then
              (if new_state then 0 else 1)
            else
              (if new_state then 1 else 0)
          (bs2, [(osc_path, normalized_value)])
        else (button_states, [])
      else (button_states, [])

/-- The learn-mode qualification test of src/main.py line 215: key not in
controls, or controls[key].get of activity is None, or force_learn. -/
def qualifies (controls : List (String × ControlEntry)) (key : String)
    (force_learn : Bool) : Bool :=
  match lookupKey controls key with
  | none => true
  | some e => decide (e.activity = none) || force_learn

/-- Learn-mode midi_callback (src/main.py lines 205-223) for one raw
message: release filter (value == 0 returns; a missing value byte is None,
which does not equal 0), qualification, then map_control with the operator
answers chIn/choiceIn; on success the mapping is stored, on cancel the
sentinel dict with activity None is stored. Returns the updated store and
whether elicitation ran. -/
def learn_step (controls : List (String × ControlEntry)) (force_learn : Bool)
    (msg : List Nat) (chIn : ChannelInput) (choiceIn : Option Int) :
    List (String × ControlEntry) × Bool :=
  match msg with
  | [] => (controls, false)
  | _ :: _ =>
    let key := keyOf msg
    let value := valueLearn msg
    if value = some 0 then (controls, false)
    else if qualifies controls key force_learn then
      match map_control chIn choiceIn with
      | some mapping => (setKey controls key mapping, true)
      | none =>
          (setKey controls key
            { activity := none, channel := none, osc_path := none }, true)
    else (controls, false)

/-- JSON values as persisted in controls.json: the store only ever contains
objects of strings, ints and null. -/
inductive Json
  | null
  | str (s : String)
  | int (n : Int)
  | obj (fields : List (String × Json))

/-- Serialization of an Activity to its JSON string. -/
def activityStr : Activity → String
  | .volume => "volume"
  | .mute => "mute"
  | .solo => "solo"

/-- Parsing of an activity string back from JSON. -/
def activityOfString (s : String) : Option Activity :=
  if s = "volume" then some Activity.volume
  else if s = "mute" then some Activity.mute
  else if s = "solo" then some Activity.solo
  else none

/-- Serialization of a channel value: ints stay ints, master/aux are the
literal strings. -/
def channelJson : ChannelRef → Json
  | .num n => Json.int n
  | .master => Json.str "master"
  | .aux => Json.str "aux"

/-- Parsing of a channel value back from JSON. -/
def channelOfJson : Json → Option ChannelRef
  | Json.int n => some (ChannelRef.num n)
  | Json.str s =>
      if s = "master" then some ChannelRef.master
      else if s = "aux" then some ChannelRef.aux
      else none
  | _ => none

/-- The JSON dict the program stores for an entry: the sentinel dict with
activity null, or the three-field mapped dict (the only shapes the source
ever writes, at src/main.py lines 128-132, 193-197 and 223). -/
def entryToJson (e : ControlEntry) : Json :=
  match e.activity, e.channel, e.osc_path with
  | some a, some ch, some p =>
      Json.obj [("activity", Json.str (activityStr a)),
                ("channel", channelJson ch),
                ("osc_path", Json.str p)]
  | _, _, _ => Json.obj [("activity", Json.null)]

/-- Parsing an entry dict back from JSON. -/
def entryOfJson : Json → Option ControlEntry
  | Json.obj [("activity", Json.null)] =>
      some { activity := none, channel := none, osc_path := none }
  | Json.obj [("activity", Json.str a), ("channel", cj), ("osc_path", Json.str p)] =>
      (match activityOfString a, channelOfJson cj with
       | some act, some ch =>
          some { activity := some act, channel := some ch, osc_path := some p }
       | _, _ => none)
  | _ => none

/-- save_controls (src/main.py lines 40-43) at the JSON document level:
json.dump of the store dict, keys in store order. -/
def save_controls (S : List (String × ControlEntry)) : Json :=
  Json.obj (S.map fun kv => (kv.1, entryToJson kv.2))

/-- load_controls (src/main.py lines 45-52) at the JSON document level:
json.load of the persisted document back into a store dict (none models a
document that is not a store of entry dicts). -/
def load_controls (j : Json) : Option (List (String × ControlEntry)) :=
  match j with
  | Json.obj fields =>
      fields.foldr
        (fun kv acc =>
          match entryOfJson kv.2, acc with
          | some e, some l => some ((kv.1, e) :: l)
          | _, _ => none)
        (some [])
  | _ => none

/-- An entry shape the program actually stores: the Unmapped sentinel or a
fully mapped entry. -/
def wellFormedEntry (e : ControlEntry) : Prop :=
  e = { activity := none, channel := none, osc_path := none } ∨
  ∃ a ch p, e = { activity := some a, channel := some ch, osc_path := some p }

theorem lookupKey_setKey_self {α : Type} (l : List (String × α)) (k : String) (v : α) :
    lookupKey (setKey l k v) k = some v := by
  induction l with
  | nil => simp [setKey, lookupKey]
  | cons hd tl ih =>
    by_cases h : hd.1 = k
    · simp [setKey, h, lookupKey]
    · simp [setKey, h, lookupKey, ih]

theorem lookupKey_setKey_ne {α : Type} (l : List (String × α)) (k k2 : String) (v : α)
    (h : k2 ≠ k) : lookupKey (setKey l k v) k2 = lookupKey l k2 := by
  induction l with
  | nil => simp [setKey, lookupKey, Ne.symm h]
  | cons hd tl ih =>
    obtain ⟨k0, v0⟩ := hd
    by_cases hh : k0 = k
    · subst hh
      simp [setKey, lookupKey, Ne.symm h]
    · simp [setKey, hh, lookupKey, ih]

theorem getD_setKey_self {α : Type} (l : List (String × α)) (k : String) (v dflt : α) :
    getD (setKey l k v) k dflt = v := by
  simp [getD, lookupKey_setKey_self]

theorem getD_setKey_ne {α : Type} (l : List (String × α)) (k k2 : String) (v dflt : α)
    (h : k2 ≠ k) : getD (setKey l k v) k2 dflt = getD l k2 dflt := by
  simp [getD, lookupKey_setKey_ne _ _ _ _ h]

theorem qualifies_iff (controls : List (String × ControlEntry)) (key : String)
    (force : Bool) :
    qualifies controls key force = true ↔
      (lookupKey controls key = none ∨
       (∃ e, lookupKey controls key = some e ∧ e.activity = none) ∨
       force = true) := by
  unfold qualifies
  cases hl : lookupKey controls key with
  | none => simp
  | some e => simp [Bool.or_eq_true, decide_eq_true_iff]

theorem learn_step_snd (controls : List (String × ControlEntry)) (force : Bool)
    (b : Nat) (rest : List Nat) (chIn : ChannelInput) (choiceIn : Option Int)
    (hv : valueLearn (b :: rest) ≠ some 0) :
    (learn_step controls force (b :: rest) chIn choiceIn).2
      = qualifies controls (keyOf (b :: rest)) force := by
  by_cases hq : qualifies controls (keyOf (b :: rest)) force
  · cases hmc : map_control chIn choiceIn <;> simp [learn_step, hv, hq, hmc]
  · simp [learn_step, hv, hq]

/-- C1: in the batch map-all-unmapped flow (map_controls), a channel input of
the literal token master or aux together with a valid function selector does
NOT complete elicitation: the unconditional osc_paths dict construction at
src/main.py lines 101-105 formats the string channel with the 02d format
spec and raises an uncaught ValueError before the master/aux special case at
lines 107-124 is reached. The single-control wizard map_control, by
contrast, produces the master row of the derivation table as the spec
intends. -/
theorem map_controls_batch_master_crashes :
    map_controls_step ChannelInput.master (some 1) =
      Except.error "Unknown format code d for object of type str" ∧
    map_controls_step ChannelInput.aux (some 3) =
      Except.error "Unknown format code d for object of type str" ∧
    map_control ChannelInput.master (some 1) =
      some { activity := some Activity.volume
             channel := some ChannelRef.master
             osc_path := some "/lr/mix/fader" } ∧
    map_control ChannelInput.aux (some 3) =
      some { activity := some Activity.solo
             channel := some ChannelRef.aux
             osc_path := some "/rtn/aux/mix/solo" } :=
  ⟨rfl, rfl, rfl, rfl⟩

/-- C2: the OSC address derivation of map_control agrees with the table of
spec section 3 for every numbered channel 1..16 and every activity,
including the two-digit zero padding, and for the Master and Aux rows. -/
theorem osc_derivation_matches_table :
    (∀ n ∈ Finset.Icc (1 : ℤ) 16,
       osc_paths (ChannelRef.num n) Activity.volume
         = spec_osc_address (ChannelRef.num n) Activity.volume ∧
       osc_paths (ChannelRef.num n) Activity.mute
         = spec_osc_address (ChannelRef.num n) Activity.mute ∧
       osc_paths (ChannelRef.num n) Activity.solo
         = spec_osc_address (ChannelRef.num n) Activity.solo) ∧
    osc_paths (ChannelRef.num 7) Activity.volume = "/ch/07/mix/fader" ∧
    osc_paths ChannelRef.master Activity.volume = "/lr/mix/fader" ∧
    osc_paths ChannelRef.master Activity.mute = "/lr/mix/on" ∧
    osc_paths ChannelRef.master Activity.solo = "/-stat/solosw/lr" ∧
    osc_paths ChannelRef.aux Activity.volume = "/rtn/aux/mix/fader" ∧
    osc_paths ChannelRef.aux Activity.mute = "/rtn/aux/mix/on" ∧
    osc_paths ChannelRef.aux Activity.solo = "/rtn/aux/mix/solo" := by
  decide

/-- Witness for C2 at channel 7. -/
theorem osc_derivation_matches_table_witness :
    (7 : ℤ) ∈ Finset.Icc (1 : ℤ) 16 ∧
    osc_paths (ChannelRef.num 7) Activity.mute
      = spec_osc_address (ChannelRef.num 7) Activity.mute :=
  ⟨by decide, (osc_derivation_matches_table.1 7 (by decide)).2.1⟩

theorem midi_callback_toggle (controls : List (String × ControlEntry))
    (bs : List (String × Bool)) (b0 b1 v : Nat) (rest : List Nat)
    (entry : ControlEntry) (p : String) (a : Activity)
    (hlook : lookupKey controls (keyOf (b0 :: b1 :: v :: rest)) = some entry)
    (hp : entry.osc_path = some p) (hpne : p ≠ "")
    (ha : entry.activity = some a)
    (hms : a = Activity.mute ∨ a = Activity.solo) (hv : 0 < v) :
    midi_callback controls bs (b0 :: b1 :: v :: rest) =
      (setKey bs (keyOf (b0 :: b1 :: v :: rest))
         (!(getD bs (keyOf (b0 :: b1 :: v :: rest)) false)),
       [(p, if a = Activity.mute
            then (if !(getD bs (keyOf (b0 :: b1 :: v :: rest)) false) then (0 : ℚ) else 1)
            else (if !(getD bs (keyOf (b0 :: b1 :: v :: rest)) false) then (1 : ℚ) else 0))]) := by
  rcases hms with h | h <;> subst h <;>
    simp [midi_callback, valueNormal, hlook, hp, hpne, truthyPath, ha, hv]

/-- C3: in normal mode, a non-zero-value event on an identity mapped to Mute
or Solo flips exactly that identity's toggle state (default false), emits
exactly one OSC message whose value encodes the new state (Mute: true sends
0, false sends 1; Solo: true sends 1, false sends 0), and a second non-zero
press of the same control restores the original toggle state and emits the
value encoding the original state. -/
theorem toggle_press_semantics (controls : List (String × ControlEntry))
    (bs : List (String × Bool)) (b0 b1 v v2 : Nat) (rest rest2 : List Nat)
    (entry : ControlEntry) (p : String) (a : Activity)
    (hlook : lookupKey controls (keyOf (b0 :: b1 :: v :: rest)) = some entry)
    (hp : entry.osc_path = some p) (hpne : p ≠ "")
    (ha : entry.activity = some a)
    (hms : a = Activity.mute ∨ a = Activity.solo)
    (hv : 0 < v) (hv2 : 0 < v2) :
    getD (midi_callback controls bs (b0 :: b1 :: v :: rest)).1
        (keyOf (b0 :: b1 :: v :: rest)) false
      = !(getD bs (keyOf (b0 :: b1 :: v :: rest)) false) ∧
    (∀ k, k ≠ keyOf (b0 :: b1 :: v :: rest) →
      getD (midi_callback controls bs (b0 :: b1 :: v :: rest)).1 k false
        = getD bs k false) ∧
    (midi_callback controls bs (b0 :: b1 :: v :: rest)).2
      = [(p, if a = Activity.mute
             then (if !(getD bs (keyOf (b0 :: b1 :: v :: rest)) false) then (0 : ℚ) else 1)
             else (if !(getD bs (keyOf (b0 :: b1 :: v :: rest)) false) then (1 : ℚ) else 0))] ∧
    getD (midi_callback controls
            (midi_callback controls bs (b0 :: b1 :: v :: rest)).1
            (b0 :: b1 :: v2 :: rest2)).1
        (keyOf (b0 :: b1 :: v :: rest)) false
      = getD bs (keyOf (b0 :: b1 :: v :: rest)) false ∧
    (midi_callback controls
        (midi_callback controls bs (b0 :: b1 :: v :: rest)).1
        (b0 :: b1 :: v2 :: rest2)).2
      = [(p, if a = Activity.mute
             then (if getD bs (keyOf (b0 :: b1 :: v :: rest)) false then (0 : ℚ) else 1)
             else (if getD bs (keyOf (b0 :: b1 :: v :: rest)) false then (1 : ℚ) else 0))] := by
  have hkey2 : keyOf (b0 :: b1 :: v2 :: rest2) = keyOf (b0 :: b1 :: v :: rest) := rfl
  have h1 := midi_callback_toggle controls bs b0 b1 v rest entry p a
    hlook hp hpne ha hms hv
  have hlook2 : lookupKey controls (keyOf (b0 :: b1 :: v2 :: rest2)) = some entry := by
    rw [hkey2]; exact hlook
  have h2 := midi_callback_toggle controls
    (midi_callback controls bs (b0 :: b1 :: v :: rest)).1 b0 b1 v2 rest2 entry p a
    hlook2 hp hpne ha hms hv2
  refine ⟨?_, ?_, ?_, ?_, ?_⟩
  · rw [h1]; simp [getD_setKey_self]
  · intro k hk; rw [h1]; simp [getD_setKey_ne _ _ _ _ _ hk]
  · rw [h1]
  · rw [h2, hkey2, h1]
    simp [getD_setKey_self]
  · rw [h2, hkey2, h1]
    simp [getD_setKey_self]

/-- Witness for C3: the spec section 8 scenario, master mute on identity
176_20, first press emits 0, second press emits 1. -/
theorem toggle_press_semantics_witness :
    lookupKey [("176_20", ({ activity := some Activity.mute
                             channel := some ChannelRef.master
                             osc_path := some "/lr/mix/on" } : ControlEntry))]
        (keyOf [176, 20, 127])
      = some { activity := some Activity.mute
               channel := some ChannelRef.master
               osc_path := some "/lr/mix/on" } ∧
    (midi_callback [("176_20", { activity := some Activity.mute
                                 channel := some ChannelRef.master
                                 osc_path := some "/lr/mix/on" })] []
        [176, 20, 127]).2
      = [("/lr/mix/on", (0 : ℚ))] ∧
    (midi_callback [("176_20", { activity := some Activity.mute
                                 channel := some ChannelRef.master
                                 osc_path := some "/lr/mix/on" })]
        (midi_callback [("176_20", { activity := some Activity.mute
                                     channel := some ChannelRef.master
                                     osc_path := some "/lr/mix/on" })] []
           [176, 20, 127]).1
        [176, 20, 127]).2
      = [("/lr/mix/on", (1 : ℚ))] := by
  have h := toggle_press_semantics
    [("176_20", { activity := some Activity.mute
                  channel := some ChannelRef.master
                  osc_path := some "/lr/mix/on" })]
    [] 176 20 127 127 [] []
    { activity := some Activity.mute
      channel := some ChannelRef.master
      osc_path := some "/lr/mix/on" }
    "/lr/mix/on" Activity.mute rfl rfl (by decide) rfl (Or.inl rfl)
    (by decide) (by decide)
  exact ⟨rfl, by simpa using h.2.2.1, by simpa using h.2.2.2.2⟩

/-- C4: in normal mode a zero value byte on a Mute/Solo identity changes no
toggle state and emits nothing, while on a Volume identity it emits the
normalized value 0. -/
theorem release_filtering (controls : List (String × ControlEntry))
    (bs : List (String × Bool)) (b0 b1 : Nat) (rest : List Nat)
    (entry : ControlEntry) (p : String)
    (hlook : lookupKey controls (keyOf (b0 :: b1 :: 0 :: rest)) = some entry)
    (hp : entry.osc_path = some p) (hpne : p ≠ "") :
    ((entry.activity = some Activity.mute ∨ entry.activity = some Activity.solo) →
       midi_callback controls bs (b0 :: b1 :: 0 :: rest) = (bs, [])) ∧
    (entry.activity = some Activity.volume →
       midi_callback controls bs (b0 :: b1 :: 0 :: rest) = (bs, [(p, 0)])) := by
  constructor
  · intro hms
    have hnv : ¬ entry.activity = some Activity.volume := by
      rcases hms with h | h <;> simp [h]
    simp [midi_callback, valueNormal, hlook, hp, hpne, truthyPath, hnv]
  · intro hvol
    simp [midi_callback, valueNormal, hlook, hp, hpne, truthyPath, hvol]

/-- Witness for C4: a release on the master mute control emits nothing, a
release on a volume fader emits 0. -/
theorem release_filtering_witness :
    lookupKey [("176_20", ({ activity := some Activity.mute
                             channel := some ChannelRef.master
                             osc_path := some "/lr/mix/on" } : ControlEntry))]
        (keyOf [176, 20, 0])
      = some { activity := some Activity.mute
               channel := some ChannelRef.master
               osc_path := some "/lr/mix/on" } ∧
    midi_callback [("176_20", { activity := some Activity.mute
                                channel := some ChannelRef.master
                                osc_path := some "/lr/mix/on" })] []
        [176, 20, 0]
      = ([], []) ∧
    midi_callback [("144_60", { activity := some Activity.volume
                                channel := some (ChannelRef.num 5)
                                osc_path := some "/ch/05/mix/fader" })] []
        [144, 60, 0]
      = ([], [("/ch/05/mix/fader", 0)]) := by
  refine ⟨rfl, ?_, ?_⟩
  · exact (release_filtering
      [("176_20", { activity := some Activity.mute
                    channel := some ChannelRef.master
                    osc_path := some "/lr/mix/on" })]
      [] 176 20 []
      { activity := some Activity.mute
        channel := some ChannelRef.master
        osc_path := some "/lr/mix/on" }
      "/lr/mix/on" rfl rfl (by decide)).1 (Or.inl rfl)
  · exact (release_filtering
      [("144_60", { activity := some Activity.volume
                    channel := some (ChannelRef.num 5)
                    osc_path := some "/ch/05/mix/fader" })]
      [] 144 60 []
      { activity := some Activity.volume
        channel := some (ChannelRef.num 5)
        osc_path := some "/ch/05/mix/fader" }
      "/ch/05/mix/fader" rfl rfl (by decide)).2 rfl

/-- C5: in normal mode an event on a Volume identity emits exactly one OSC
message to the mapped path carrying value divided by 127, for every value
byte 0..127. -/
theorem volume_normalization (controls : List (String × ControlEntry))
    (bs : List (String × Bool)) (b0 b1 v : Nat) (rest : List Nat)
    (entry : ControlEntry) (p : String)
    (hlook : lookupKey controls (keyOf (b0 :: b1 :: v :: rest)) = some entry)
    (hp : entry.osc_path = some p) (hpne : p ≠ "")
    (hvol : entry.activity = some Activity.volume) (_hv : v ≤ 127) :
    midi_callback controls bs (b0 :: b1 :: v :: rest)
      = (bs, [(p, (v : ℚ) / 127)]) := by
  simp [midi_callback, valueNormal, hlook, hp, hpne, truthyPath, hvol]

/-- Witness for C5: the spec section 8 scenario, value 64 on identity 144_60
mapped to the channel 5 fader. -/
theorem volume_normalization_witness :
    lookupKey [("144_60", ({ activity := some Activity.volume
                             channel := some (ChannelRef.num 5)
                             osc_path := some "/ch/05/mix/fader" } : ControlEntry))]
        (keyOf [144, 60, 64])
      = some { activity := some Activity.volume
               channel := some (ChannelRef.num 5)
               osc_path := some "/ch/05/mix/fader" } ∧
    (64 : Nat) ≤ 127 ∧
    midi_callback [("144_60", { activity := some Activity.volume
                                channel := some (ChannelRef.num 5)
                                osc_path := some "/ch/05/mix/fader" })] []
        [144, 60, 64]
      = ([], [("/ch/05/mix/fader", (64 : ℚ) / 127)]) :=
  ⟨rfl, by decide,
   volume_normalization _ [] 144 60 64 [] _ "/ch/05/mix/fader" rfl rfl (by decide)
     rfl (by decide)⟩

/-- C7: in normal mode an event whose identity has no store entry, or whose
entry is the Unmapped sentinel (osc_path absent), emits nothing and leaves
the toggle states unchanged. -/
theorem unmapped_drop (controls : List (String × ControlEntry))
    (bs : List (String × Bool)) (msg : List Nat)
    (h : lookupKey controls (keyOf msg) = none ∨
         ∃ entry, lookupKey controls (keyOf msg) = some entry ∧
           entry.osc_path = none) :
    midi_callback controls bs msg = (bs, []) := by
  cases msg with
  | nil => rfl
  | cons b rest =>
    rcases h with h | ⟨entry, hlook, hp⟩
    · simp [midi_callback, h]
    · simp [midi_callback, hlook, hp, truthyPath]

/-- Witness for C7: an unknown identity and an Unmapped sentinel both drop
the event. -/
theorem unmapped_drop_witness :
    (lookupKey ([] : List (String × ControlEntry)) (keyOf [144, 60, 64]) = none ∨
     ∃ entry, lookupKey ([] : List (String × ControlEntry))
         (keyOf [144, 60, 64]) = some entry ∧ entry.osc_path = none) ∧
    midi_callback [] [("144_60", true)] [144, 60, 64]
      = ([("144_60", true)], []) ∧
    midi_callback [("176_20", { activity := none, channel := none, osc_path := none })]
        [] [176, 20, 127]
      = ([], []) := by
  refine ⟨Or.inl rfl, unmapped_drop [] _ _ (Or.inl rfl), ?_⟩
  exact unmapped_drop _ [] [176, 20, 127]
    (Or.inr ⟨{ activity := none, channel := none, osc_path := none }, rfl, rfl⟩)

/-- C6: in a live learn session, an event with a non-zero value triggers
elicitation exactly when its identity is absent from the store, or its
current mapping has activity null, or the session is in force-learn mode;
consequently an Unmapped identity is re-offered on every qualifying event
and a force-learn session re-offers regardless of the current mapping. -/
theorem learn_qualification (controls : List (String × ControlEntry))
    (force : Bool) (msg : List Nat) (chIn : ChannelInput) (choiceIn : Option Int)
    (hmsg : msg ≠ []) (hv : valueLearn msg ≠ some 0) :
    (learn_step controls force msg chIn choiceIn).2 = true ↔
      (lookupKey controls (keyOf msg) = none ∨
       (∃ e, lookupKey controls (keyOf msg) = some e ∧ e.activity = none) ∨
       force = true) := by
  cases msg with
  | nil => exact absurd rfl hmsg
  | cons b rest =>
    rw [learn_step_snd controls force b rest chIn choiceIn hv]
    exact qualifies_iff controls (keyOf (b :: rest)) force

/-- Witness for C6: an Unmapped identity is re-offered in a non-force
session, and a force session re-offers an already-Mapped identity. -/
theorem learn_qualification_witness :
    ([176, 20, 127] : List Nat) ≠ [] ∧
    valueLearn [176, 20, 127] ≠ some 0 ∧
    (learn_step [("176_20", { activity := none, channel := none, osc_path := none })]
        false [176, 20, 127] ChannelInput.master (some 2)).2 = true ∧
    (learn_step [("176_20", { activity := some Activity.mute
                              channel := some ChannelRef.master
                              osc_path := some "/lr/mix/on" })]
        true [176, 20, 127] ChannelInput.master (some 2)).2 = true := by
  refine ⟨by decide, by decide, ?_, ?_⟩
  · exact (learn_qualification
      [("176_20", { activity := none, channel := none, osc_path := none })]
      false [176, 20, 127] ChannelInput.master (some 2) (by decide) (by decide)).2
      (Or.inr (Or.inl ⟨{ activity := none, channel := none, osc_path := none },
        rfl, rfl⟩))
  · exact (learn_qualification
      [("176_20", { activity := some Activity.mute
                    channel := some ChannelRef.master
                    osc_path := some "/lr/mix/on" })]
      true [176, 20, 127] ChannelInput.master (some 2) (by decide) (by decide)).2
      (Or.inr (Or.inr rfl))

/-- C9: when elicitation for a qualifying event is cancelled by an invalid
input (map_control returns none), the in-memory store entry for that
identity becomes the Unmapped sentinel with activity null, replacing
whatever entry was there before. -/
theorem cancel_records_sentinel (controls : List (String × ControlEntry))
    (force : Bool) (msg : List Nat) (chIn : ChannelInput) (choiceIn : Option Int)
    (hmsg : msg ≠ []) (hv : valueLearn msg ≠ some 0)
    (hq : qualifies controls (keyOf msg) force = true)
    (hcancel : map_control chIn choiceIn = none) :
    lookupKey (learn_step controls force msg chIn choiceIn).1 (keyOf msg)
      = some { activity := none, channel := none, osc_path := none } := by
  cases msg with
  | nil => exact absurd rfl hmsg
  | cons b rest =>
    simp [learn_step, hv, hq, hcancel, lookupKey_setKey_self]

/-- Witness for C9: in force-learn mode, an invalid channel input while
re-eliciting an already-Mapped control overwrites the Mapped entry with the
sentinel. -/
theorem cancel_records_sentinel_witness :
    ([176, 20, 127] : List Nat) ≠ [] ∧
    valueLearn [176, 20, 127] ≠ some 0 ∧
    qualifies [("176_20", { activity := some Activity.mute
                            channel := some ChannelRef.master
                            osc_path := some "/lr/mix/on" })]
      (keyOf [176, 20, 127]) true = true ∧
    map_control ChannelInput.invalid (some 2) = none ∧
    lookupKey (learn_step
        [("176_20", { activity := some Activity.mute
                      channel := some ChannelRef.master
                      osc_path := some "/lr/mix/on" })]
        true [176, 20, 127] ChannelInput.invalid (some 2)).1
      (keyOf [176, 20, 127])
      = some { activity := none, channel := none, osc_path := none } :=
  ⟨by decide, by decide, by decide, rfl,
   cancel_records_sentinel
     [("176_20", { activity := some Activity.mute
                   channel := some ChannelRef.master
                   osc_path := some "/lr/mix/on" })]
     true [176, 20, 127] ChannelInput.invalid (some 2)
     (by decide) (by decide) (by decide) rfl⟩

/-- C10: a raw MIDI message shorter than three bytes gets value None in
learn mode (so it passes the zero-value release filter and can trigger
elicitation) and value 0 in normal mode (so a Volume identity emits the
normalized value 0 and a Mute/Solo identity emits nothing). -/
theorem short_message_semantics (b0 b1 : Nat) :
    valueLearn [b0, b1] = none ∧ valueLearn [b0] = none ∧
    valueNormal [b0, b1] = 0 ∧ valueNormal [b0] = 0 ∧
    (∀ (controls : List (String × ControlEntry)) (force : Bool)
       (chIn : ChannelInput) (choiceIn : Option Int),
        qualifies controls (keyOf [b0, b1]) force = true →
        (learn_step controls force [b0, b1] chIn choiceIn).2 = true) ∧
    (∀ (controls : List (String × ControlEntry)) (bs : List (String × Bool))
       (entry : ControlEntry) (p : String),
        lookupKey controls (keyOf [b0, b1]) = some entry →
        entry.osc_path = some p → p ≠ "" →
        (entry.activity = some Activity.volume →
           midi_callback controls bs [b0, b1] = (bs, [(p, 0)])) ∧
        ((entry.activity = some Activity.mute ∨
          entry.activity = some Activity.solo) →
           midi_callback controls bs [b0, b1] = (bs, []))) := by
  refine ⟨rfl, rfl, rfl, rfl, ?_, ?_⟩
  · intro controls force chIn choiceIn hq
    rw [learn_step_snd controls force b0 [b1] chIn choiceIn (by simp [valueLearn])]
    exact hq
  · intro controls bs entry p hlook hp hpne
    constructor
    · intro hvol
      simp [midi_callback, valueNormal, hlook, hp, hpne, truthyPath, hvol]
    · intro hms
      have hnv : ¬ entry.activity = some Activity.volume := by
        rcases hms with h | h <;> simp [h]
      simp [midi_callback, valueNormal, hlook, hp, hpne, truthyPath, hnv]

/-- Witness for C10: a two-byte message triggers elicitation for a new
identity in learn mode, emits 0 on a volume identity and nothing on a mute
identity in normal mode. -/
theorem short_message_semantics_witness :
    valueLearn [176, 20] = none ∧
    qualifies ([] : List (String × ControlEntry)) (keyOf [176, 20]) false = true ∧
    (learn_step [] false [176, 20] ChannelInput.master (some 2)).2 = true ∧
    midi_callback [("144_60", { activity := some Activity.volume
                                channel := some (ChannelRef.num 5)
                                osc_path := some "/ch/05/mix/fader" })] []
        [144, 60]
      = ([], [("/ch/05/mix/fader", 0)]) ∧
    midi_callback [("176_20", { activity := some Activity.mute
                                channel := some ChannelRef.master
                                osc_path := some "/lr/mix/on" })] []
        [176, 20]
      = ([], []) := by
  refine ⟨(short_message_semantics 176 20).1, by decide, ?_, ?_, ?_⟩
  · exact (short_message_semantics 176 20).2.2.2.2.1 [] false
      ChannelInput.master (some 2) (by decide)
  · exact ((short_message_semantics 144 60).2.2.2.2.2
      [("144_60", { activity := some Activity.volume
                    channel := some (ChannelRef.num 5)
                    osc_path := some "/ch/05/mix/fader" })]
      []
      { activity := some Activity.volume
        channel := some (ChannelRef.num 5)
        osc_path := some "/ch/05/mix/fader" }
      "/ch/05/mix/fader" rfl rfl (by decide)).1 rfl
  · exact ((short_message_semantics 176 20).2.2.2.2.2
      [("176_20", { activity := some Activity.mute
                    channel := some ChannelRef.master
                    osc_path := some "/lr/mix/on" })]
      []
      { activity := some Activity.mute
        channel := some ChannelRef.master
        osc_path := some "/lr/mix/on" }
      "/lr/mix/on" rfl rfl (by decide)).2 (Or.inl rfl)

/-- C8: loading the persisted JSON document produced by saving a control
store returns the same store (the program only ever stores sentinel or
fully mapped entries, captured by the well-formedness hypothesis). -/
theorem load_save_roundtrip (S : List (String × ControlEntry))
    (hwf : ∀ kv ∈ S, wellFormedEntry kv.2) :
    load_controls (save_controls S) = some S := by
  induction S with
  | nil => rfl
  | cons hd tl ih =>
    have hhd : wellFormedEntry hd.2 := hwf hd (by simp)
    have htl : ∀ kv ∈ tl, wellFormedEntry kv.2 := fun kv hkv => hwf kv (by simp [hkv])
    have ihh := ih htl
    have hdec : entryOfJson (entryToJson hd.2) = some hd.2 := by
      rcases hhd with h | ⟨a, ch, p, h⟩
      · rw [h]; rfl
      · rw [h]; cases a <;> cases ch <;> rfl
    obtain ⟨k, e⟩ := hd
    simp only [save_controls, load_controls, List.map_cons, List.foldr_cons] at ihh ⊢
    rw [hdec, ihh]

/-- Witness for C8: a concrete two-entry store (one mapped, one sentinel)
round-trips through the persisted document. -/
theorem load_save_roundtrip_witness :
    (∀ kv ∈ [("144_60", ({ activity := some Activity.volume
                           channel := some (ChannelRef.num 5)
                           osc_path := some "/ch/05/mix/fader" } : ControlEntry)),
             ("176_20", ({ activity := none, channel := none,
                           osc_path := none } : ControlEntry))],
        wellFormedEntry kv.2) ∧
    load_controls (save_controls
        [("144_60", { activity := some Activity.volume
                      channel := some (ChannelRef.num 5)
                      osc_path := some "/ch/05/mix/fader" }),
         ("176_20", { activity := none, channel := none, osc_path := none })])
      = some
        [("144_60", { activity := some Activity.volume
                      channel := some (ChannelRef.num 5)
                      osc_path := some "/ch/05/mix/fader" }),
         ("176_20", { activity := none, channel := none, osc_path := none })] := by
  have hwf : ∀ kv ∈ [("144_60", ({ activity := some Activity.volume
                                   channel := some (ChannelRef.num 5)
                                   osc_path := some "/ch/05/mix/fader" } : ControlEntry)),
                     ("176_20", ({ activity := none, channel := none,
                                   osc_path := none } : ControlEntry))],
      wellFormedEntry kv.2 := by
    intro kv hkv
    rcases List.mem_cons.1 hkv with h | hkv
    · subst h
      exact Or.inr ⟨Activity.volume, ChannelRef.num 5, "/ch/05/mix/fader", rfl⟩
    · rcases List.mem_cons.1 hkv with h | hkv
      · subst h
        exact Or.inl rfl
      · exact absurd hkv (List.not_mem_nil _)
  exact ⟨hwf, load_save_roundtrip _ hwf⟩

end XTouchMini
